import Mathlib

/-!
# Verification of the itinerary data model and hotel search engine

Shallow embedding of the core of the `agentic-era-hack` travel-planner
repository, together with theorems settling the frozen claims about it.

Embedding conventions:
* Python `str` values are modelled as `List Char` (`Str` below); the
  char-level operations (`lower`, `strip`, `split`, substring) are written
  out explicitly so that they reduce in the kernel.  They handle the
  ASCII range exactly as CPython does; full-Unicode case folding and
  non-ASCII decimal digits are outside the model.
* JSON numbers are modelled as `ℚ` (binary64 rounding of float literals
  is abstracted away: values are carried exactly).
* `None`-able Python values are `Option _`; Python truthiness (`or`,
  `if x:`) is modelled by explicit truthiness predicates per type.
* Functions performing network or file I/O take the collaborator's
  response (and a list of performed writes is returned) explicitly;
  the control flow around those responses is translated from the source.
* `datetime.date` is a `Date` record of numeric year/month/day with the
  Gregorian validity rules used by CPython (`datetime.MINYEAR = 1`,
  `MAXYEAR = 9999`).
-/

/-! ## Python-style strings and truthiness -/

abbrev Str := List Char

/-- Python truthiness of an optional string: `None` and `""` are falsy. -/
def sTruthy : Option Str → Bool
  | none => false
  | some s => !s.isEmpty

/-- Python `a or b` on optional strings. -/
def orS (a b : Option Str) : Option Str :=
  if sTruthy a then a else b

/-- Python truthiness of an optional number: `None` and `0` are falsy. -/
def qTruthy : Option ℚ → Bool
  | none => false
  | some x => x != 0

/-- Python `a or b` on optional numbers. -/
def orQ (a b : Option ℚ) : Option ℚ :=
  if qTruthy a then a else b

/-- Python `str.lower()` (ASCII case mapping). -/
def pyLower (s : Str) : Str := s.map Char.toLower

/-- Python `str.upper()` (ASCII case mapping). -/
def pyUpper (s : Str) : Str := s.map Char.toUpper

/-- Python `str.strip()`: drop leading and trailing whitespace. -/
def pyStrip (s : Str) : Str :=
  ((s.dropWhile Char.isWhitespace).reverse.dropWhile Char.isWhitespace).reverse

/-- Helper for `pyWords`: accumulate the current word (reversed). -/
def pyWordsAux : Str → Str → List Str
  | [], acc => if acc.isEmpty then [] else [acc.reverse]
  | c :: rest, acc =>
      if c.isWhitespace then
        if acc.isEmpty then pyWordsAux rest [] else acc.reverse :: pyWordsAux rest []
      else pyWordsAux rest (c :: acc)

/-- Python `str.split()` with no argument: split on whitespace runs,
no empty words. -/
def pyWords (s : Str) : List Str := pyWordsAux s []

/-- Python `a in b` substring containment on strings. -/
def pySubstr (a b : Str) : Bool := decide (a <:+: b)

/-- Python `str.split(sep)` for a single-character separator: keeps empty
fields, `"".split(sep) == [""]`. -/
def splitOnChar (sep : Char) : Str → List Str
  | [] => [[]]
  | c :: rest =>
      if c = sep then [] :: splitOnChar sep rest
      else
        match splitOnChar sep rest with
        | [] => [[c]]
        | w :: ws => (c :: w) :: ws

/-- All characters are ASCII decimal digits. -/
def allDigits (s : Str) : Bool := s.all Char.isDigit

/-- Numeric value of an ASCII digit string (most significant first). -/
def digitsToNat (s : Str) : Nat :=
  s.foldl (fun n c => n * 10 + (c.toNat - '0'.toNat)) 0

/-! ## Calendar dates (`datetime.date`) -/

/-- A calendar date as carried by `datetime.date`. -/
structure Date where
  year : Nat
  month : Nat
  day : Nat
deriving DecidableEq, Repr

/-- Gregorian leap-year rule (as in CPython's `calendar.isleap`). -/
def isLeap (y : Nat) : Bool :=
  (y % 4 == 0 && y % 100 != 0) || y % 400 == 0

/-- Days in a month of a given year. -/
def daysInMonth (y m : Nat) : Nat :=
  if m = 2 then (if isLeap y then 29 else 28)
  else if m = 4 ∨ m = 6 ∨ m = 9 ∨ m = 11 then 30
  else 31

/-- The validity range `datetime.date` enforces
(`MINYEAR = 1`, `MAXYEAR = 9999`). -/
def Date.valid (d : Date) : Bool :=
  1 ≤ d.year && d.year ≤ 9999 && 1 ≤ d.month && d.month ≤ 12 &&
    1 ≤ d.day && d.day ≤ daysInMonth d.year d.month

/-- Successor date (one day later). -/
def Date.next (d : Date) : Date :=
  if d.day < daysInMonth d.year d.month then ⟨d.year, d.month, d.day + 1⟩
  else if d.month < 12 then ⟨d.year, d.month + 1, 1⟩
  else ⟨d.year + 1, 1, 1⟩

/-- The day-successor arithmetic underlying `d + timedelta(days = n)`,
without the `date.max` bound (the bounded, fallible form used by date
construction is `addDays?` below). -/
def addDays (d : Date) : Nat → Date
  | 0 => d
  | n + 1 => (addDays d n).next

/-- `d + timedelta(days = n)` as `date.__add__` performs it: raises
`OverflowError` (here `none`) when the result would pass
`date.max = 9999-12-31`. -/
def addDaysChecked (d : Date) (n : Nat) : Option Date :=
  if 9999 < (addDays d n).year then none else some (addDays d n)

/-- `datetime.date` comparison (lexicographic on year, month, day). -/
def dateLt (a b : Date) : Bool :=
  a.year < b.year ||
    (a.year == b.year &&
      (a.month < b.month || (a.month == b.month && a.day < b.day)))

/-! ## Date parsing and formatting (`strptime` / `strftime`) -/

/-- Component order of the date formats `_coerce_date_like` tries. -/
inductive DateOrder | dmy | ymd | mdy
deriving DecidableEq, Repr

/-- One `strptime` date format: a separator and a component order
(the year component is always `%Y`, i.e. exactly four digits). -/
structure DateFmt where
  sep : Char
  ord : DateOrder
deriving DecidableEq, Repr

/-- `strptime` `%d` component: one or two digits, value 1–31. -/
def dayComp? (s : Str) : Option Nat :=
  if (s.length = 1 ∨ s.length = 2) ∧ allDigits s ∧
      1 ≤ digitsToNat s ∧ digitsToNat s ≤ 31 then some (digitsToNat s) else none

/-- `strptime` `%m` component: one or two digits, value 1–12. -/
def monthComp? (s : Str) : Option Nat :=
  if (s.length = 1 ∨ s.length = 2) ∧ allDigits s ∧
      1 ≤ digitsToNat s ∧ digitsToNat s ≤ 12 then some (digitsToNat s) else none

/-- `strptime` `%Y` component: exactly four digits; year 0000 is rejected
by `datetime` (`MINYEAR = 1`). -/
def yearComp? (s : Str) : Option Nat :=
  if s.length = 4 ∧ allDigits s ∧ 1 ≤ digitsToNat s then some (digitsToNat s)
  else none

/-- Final calendar check `datetime` performs on the matched components. -/
def mkValidDate? (y m d : Nat) : Option Date :=
  if d ≤ daysInMonth y m then some ⟨y, m, d⟩ else none

/-- `datetime.strptime(s, fmt)` restricted to the five purely-numeric date
formats used by the planner schema, modelled by splitting on the single
separator character (equivalent to the `_strptime` regex for these
formats: each component is a digit run, and any leftover input makes the
overall match fail). -/
def strptimeDate? (fmt : DateFmt) (s : Str) : Option Date :=
  match splitOnChar fmt.sep s with
  | [a, b, c] =>
      match fmt.ord with
      | .dmy =>
          match dayComp? a, monthComp? b, yearComp? c with
          | some d, some m, some y => mkValidDate? y m d
          | _, _, _ => none
      | .ymd =>
          match yearComp? a, monthComp? b, dayComp? c with
          | some y, some m, some d => mkValidDate? y m d
          | _, _, _ => none
      | .mdy =>
          match monthComp? a, dayComp? b, yearComp? c with
          | some m, some d, some y => mkValidDate? y m d
          | _, _, _ => none
  | _ => none

/-- The ASCII digit character of `n % 10`. -/
def digitChar (n : Nat) : Char :=
  match n % 10 with
  | 0 => '0' | 1 => '1' | 2 => '2' | 3 => '3' | 4 => '4'
  | 5 => '5' | 6 => '6' | 7 => '7' | 8 => '8' | _ => '9'

/-- `%02d` for values below 100 (day and month of a valid date). -/
def pad2 (n : Nat) : Str := [digitChar (n / 10), digitChar n]

/-- Four-digit zero-padded year, `%Y` for values below 10000. -/
def pad4 (n : Nat) : Str :=
  [digitChar (n / 1000), digitChar (n / 100), digitChar (n / 10), digitChar n]

/-- `date.strftime("%d.%m.%Y")`: the canonical `dd.mm.yyyy` rendering.
(`%Y` is rendered four-digit zero-padded; platform `strftime`s differ
only for years below 1000, which no claim exercises.) -/
def strftimeDMY (d : Date) : Str :=
  pad2 d.day ++ '.' :: pad2 d.month ++ '.' :: pad4 d.year

/-! ## `_coerce_date_like` (planner_agent/outputSchema.py) -/

/-- The value kinds `_coerce_date_like` accepts without a `TypeError`:
`str`, `datetime.date`, `datetime.datetime` (whose time of day it
discards). -/
inductive DateLike
  | date (d : Date)
  | datetime (d : Date)
  | str (s : Str)
deriving DecidableEq, Repr

/-- The five formats tried, in source order:
`%d.%m.%Y`, `%Y-%m-%d`, `%Y/%m/%d`, `%d/%m/%Y`, `%m/%d/%Y`. -/
def dateFormats : List DateFmt :=
  [⟨'.', .dmy⟩, ⟨'-', .ymd⟩, ⟨'/', .ymd⟩, ⟨'/', .dmy⟩, ⟨'/', .mdy⟩]

/-- First successful parse among a format list. -/
def firstParse : List DateFmt → Str → Option Date
  | [], _ => none
  | f :: fs, s =>
      match strptimeDate? f s with
      | some d => some d
      | none => firstParse fs s

/-- The string arm of `_coerce_date_like`: try the five formats in order,
render the first hit as `dd.mm.yyyy`, fall back to the input unchanged. -/
def coerceDateStr (s : Str) : Str :=
  match firstParse dateFormats s with
  | some d => strftimeDMY d
  | none => s

/-- `_coerce_date_like`: dates and datetimes are rendered canonically,
strings go through the five-format parse with lenient fallback. -/
def _coerce_date_like : DateLike → Str
  | .date d => strftimeDMY d
  | .datetime d => strftimeDMY d
  | .str s => coerceDateStr s

/-! ## `inputSchema.py`: `DateRange` -/

/-- `Except`-valued success test (pydantic construction either returns the
model instance or raises a `ValidationError`). -/
def exceptOk {ε α : Type} : Except ε α → Bool
  | .ok _ => true
  | .error _ => false

/-- A validated `DateRange` (after `_set_or_check_end`, `end_date` is
always present). -/
structure DateRange where
  start_date : Date
  end_date : Date
  number_of_days : Nat
deriving DecidableEq, Repr

/-- `DateRange` construction: `number_of_days` must satisfy `ge=1`; an
absent `end_date` is derived as `start_date + timedelta(days=number_of_days)`
(which raises `OverflowError` past `date.max`, ending construction);
a derived-or-given `end_date` before `start_date` fails validation. -/
def mkDateRange (start : Date) (endOpt : Option Date) (number_of_days : Nat) :
    Except Str DateRange :=
  if number_of_days < 1 then
    .error "Input should be greater than or equal to 1".data
  else
    match endOpt with
    | some e =>
        if dateLt e start then
          .error "end_date cannot be before start_date".data
        else
          .ok ⟨start, e, number_of_days⟩
    | none =>
        match addDaysChecked start number_of_days with
        | none => .error "OverflowError: date value out of range".data
        | some e =>
            if dateLt e start then
              .error "end_date cannot be before start_date".data
            else
              .ok ⟨start, e, number_of_days⟩

/-- `_to_date`: accepts a date or a strict `dd.mm.yyyy` string
(`datetime.strptime(v, "%d.%m.%Y")`). -/
def toDate? (s : Str) : Option Date := strptimeDate? ⟨'.', .dmy⟩ s

/-! ## `inputSchema.py`: `Preferences` -/

/-- JSON-ish scalar inputs for `budget_amount`. -/
inductive PyVal
  | none
  | num (q : ℚ)
  | str (s : Str)
deriving DecidableEq, Repr

/-- Mantissa of a Python float literal: `digits`, `digits.digits`,
`digits.`, or `.digits` (at least one digit overall). -/
def parseMantissa? (s : Str) : Option ℚ :=
  match splitOnChar '.' s with
  | [a] =>
      if a ≠ [] ∧ allDigits a then some (digitsToNat a) else none
  | [a, b] =>
      if (a ≠ [] ∨ b ≠ []) ∧ allDigits a ∧ allDigits b then
        some ((digitsToNat a : ℚ) + (digitsToNat b : ℚ) / 10 ^ b.length)
      else none
  | _ => none

/-- Optionally signed decimal exponent, e.g. `5`, `+5`, `-12`. -/
def parseExponent? (s : Str) : Option ℤ :=
  match s with
  | '+' :: r => if r ≠ [] ∧ allDigits r then some (digitsToNat r) else none
  | '-' :: r => if r ≠ [] ∧ allDigits r then some (-(digitsToNat r : ℤ)) else none
  | r => if r ≠ [] ∧ allDigits r then some (digitsToNat r) else none

/-- Unsigned Python float literal, with optional `e`/`E` exponent. -/
def parseUnsignedFloat? (s : Str) : Option ℚ :=
  match splitOnChar 'e' (s.map Char.toLower) with
  | [m] => parseMantissa? m
  | [m, ex] => do
      let mv ← parseMantissa? m
      let ev ← parseExponent? ex
      some (mv * 10 ^ ev)
  | _ => none

/-- Python `float(s)` on strings: surrounding whitespace stripped,
optional sign, decimal mantissa with optional exponent.  (`inf`, `nan`
and digit-group underscores are outside the model, and the exact value
is carried in `ℚ` rather than rounded to binary64.) -/
def pyFloat? (s : Str) : Option ℚ :=
  match pyStrip s with
  | '+' :: r => parseUnsignedFloat? r
  | '-' :: r => (parseUnsignedFloat? r).map Neg.neg
  | r => parseUnsignedFloat? r

/-- `Preferences._coerce_budget` (`mode="before"`): a string that
`float()` accepts becomes that number, any other string is returned
as-is; non-strings pass through. -/
def _coerce_budget : PyVal → PyVal
  | .str s =>
      match pyFloat? s with
      | some q => .num q
      | Option.none => .str s
  | v => v

/-- The full pydantic pipeline for the `budget_amount: Optional[float]`
field: the `before` validator, then lax core validation of the
`Optional[float]` type, which itself coerces numeric strings and
rejects every other string. -/
def validateBudget (v : PyVal) : Except Str (Option ℚ) :=
  match _coerce_budget v with
  | .none => .ok Option.none
  | .num q => .ok (some q)
  | .str s =>
      match pyFloat? s with
      | some q => .ok (some q)
      | Option.none =>
          .error "Input should be a valid number, unable to parse string as a number".data

/-- The slice of `Preferences` the budget/currency claims are about. -/
structure Preferences where
  budget_amount : Option ℚ
  currency : Str
deriving DecidableEq, Repr

/-- `Preferences` construction restricted to `budget_amount` (before
validator + `Optional[float]` core validation) and `currency`
(upper-cased by `_upper_currency`). -/
def mkPreferences (budget : PyVal) (currency : Str) : Except Str Preferences :=
  match validateBudget budget with
  | .error e => .error e
  | .ok b => .ok ⟨b, pyUpper currency⟩

/-! ## `planner_agent/outputSchema.py`: itinerary response model -/

/-- `strptime` `%H` component: one or two digits, value 0–23. -/
def hourOk (s : Str) : Bool :=
  (s.length == 1 || s.length == 2) && allDigits s && digitsToNat s ≤ 23

/-- `strptime` `%M` / `%S` component: one or two digits, value 0–59. -/
def minSecOk (s : Str) : Bool :=
  (s.length == 1 || s.length == 2) && allDigits s && digitsToNat s ≤ 59

/-- `_coerce_time`: negative unix seconds are rejected; digit strings
become ints; valid `HH:MM`/`HH:MM:SS` strings and everything else pass
through unchanged. -/
def _coerce_time : Int ⊕ Str → Except Str (Int ⊕ Str)
  | .inl n => if n < 0 then .error "time unix seconds must be >= 0".data else .ok (.inl n)
  | .inr s =>
      if s ≠ [] ∧ allDigits s then .ok (.inl (digitsToNat s)) else
      match splitOnChar ':' s with
      | [h, m] => .ok (if hourOk h && minSecOk m then .inr s else .inr s)
      | [h, m, sec] =>
          .ok (if hourOk h && minSecOk m && minSecOk sec then .inr s else .inr s)
      | _ => .ok (.inr s)

/-- `Travel` sub-record of a `Place`. -/
structure Travel where
  mode : Option Str
  to_go : Option (Str ⊕ Int)
deriving DecidableEq, Repr

/-- A validated itinerary `Place`. -/
structure Place where
  order : Int
  place_id : Int ⊕ Str
  lat : ℚ
  lon : ℚ
  name : Str
  address : Option Str
  place_type : Option Str
  travel : Travel
  time : Int ⊕ Str
deriving DecidableEq, Repr

/-- `Place` construction: `order` must satisfy `ge=1`; `lat`/`lon` are
strictly numeric by the input type and range-checked; `time` goes through
`_coerce_time`. -/
def mkPlace (order : Int) (place_id : Int ⊕ Str) (lat lon : ℚ) (name : Str)
    (address place_type : Option Str) (travel : Travel) (time : Int ⊕ Str) :
    Except Str Place :=
  if order < 1 then .error "Input should be greater than or equal to 1".data
  else if lat < -90 ∨ 90 < lat then
    .error "Input should be greater than or equal to -90".data
  else if lon < -180 ∨ 180 < lon then
    .error "Input should be greater than or equal to -180".data
  else
    match _coerce_time time with
    | .error e => .error e
    | .ok t => .ok ⟨order, place_id, lat, lon, name, address, place_type, travel, t⟩

/-- A validated `DayPlan`. -/
structure DayPlan where
  order : Int
  date : Str
  places : List Place
  summary : Str
deriving DecidableEq, Repr

/-- The `_check_places_order` / `_check_day_orders` condition on a
non-empty order list: `min(orders) == 1` and
`sorted(orders) == list(range(1, len(orders) + 1))`. -/
def ordersConsecutive (orders : List Int) : Bool :=
  orders.min? == some 1 &&
    List.insertionSort (· ≤ ·) orders ==
      (List.range' 1 orders.length).map Int.ofNat

/-- `DayPlan` construction: `order` must satisfy `ge=1`, the date is
coerced by `_coerce_date_like`, and when `places` is non-empty its
`order` values must pass `_check_places_order`. -/
def mkDayPlan (order : Int) (date : DateLike) (places : List Place)
    (summary : Str) : Except Str DayPlan :=
  if order < 1 then .error "Input should be greater than or equal to 1".data
  else if places ≠ [] ∧ ¬ ordersConsecutive (places.map Place.order) then
    .error "places.order must start at 1 and be consecutive".data
  else .ok ⟨order, _coerce_date_like date, places, summary⟩

/-- A validated `HotelInformation` (dates already coerced). -/
structure HotelInformation where
  name : Str
  place_id : Int ⊕ Str
  lat : ℚ
  lon : ℚ
  address : Option Str
  check_in : Option Str
  check_out : Option Str
  nights : Option (Int ⊕ Str)
  price_per_night : Option (ℚ ⊕ Str)
  total_price : Option (ℚ ⊕ Str)
  currency : Option Str
  booking_link : Option Str
deriving DecidableEq, Repr

/-- A validated `ItineraryResponse`. -/
structure ItineraryResponse where
  hotel_information : HotelInformation
  day_plans : List DayPlan
deriving DecidableEq, Repr

/-- `ItineraryResponse` construction: its only own validator is
`_check_day_orders` over the `day_plans` order values. -/
def mkItineraryResponse (hotel_information : HotelInformation)
    (day_plans : List DayPlan) : Except Str ItineraryResponse :=
  if day_plans ≠ [] ∧ ¬ ordersConsecutive (day_plans.map DayPlan.order) then
    .error "day_plans.order must start at 1 and be consecutive".data
  else .ok ⟨hotel_information, day_plans⟩

/-! ## `hotels_agent/tools.py`: normalization and name similarity -/

/-- The nested `location` object of a provider place payload: latitude
and longitude under either the new (`latitude`/`longitude`) or legacy
(`lat`/`lng`) field names. -/
structure RawLocation where
  latitude : Option ℚ
  longitude : Option ℚ
  lat : Option ℚ
  lng : Option ℚ
deriving DecidableEq, Repr

/-- `place.get("location", {})` default. -/
def emptyLocation : RawLocation := ⟨none, none, none, none⟩

/-- The `displayName` field: absent, a plain string, or a `{text: ...}`
wrapper object. -/
inductive RawName
  | absent
  | plain (s : Str)
  | obj (text : Option Str)
deriving DecidableEq, Repr

/-- A provider place payload, with the field-name variants
`_normalize_place_data` resolves.  Values whose structure the
normalizer never inspects (price level, opening hours, photo and review
items) are carried as opaque strings. -/
structure RawPlace where
  id : Option Str
  place_id : Option Str
  displayName : RawName
  name : Option Str
  formattedAddress : Option Str
  address : Option Str
  location : Option RawLocation
  rating : Option ℚ
  userRatingCount : Option ℚ
  user_rating_count : Option ℚ
  priceLevel : Option Str
  price_level : Option Str
  types : Option (List Str)
  internationalPhoneNumber : Option Str
  phone : Option Str
  websiteUri : Option Str
  website : Option Str
  currentOpeningHours : Option Str
  opening_hours : Option Str
  photos : Option (List Str)
  reviews : Option (List Str)
deriving DecidableEq, Repr

/-- A payload with every optional field absent. -/
def emptyRawPlace : RawPlace :=
  ⟨none, none, .absent, none, none, none, none, none, none, none, none,
    none, none, none, none, none, none, none, none, none, none⟩

/-- Resolved latitude:
`location.get("latitude") or location.get("lat")`. -/
def resolvedLat (place : RawPlace) : Option ℚ :=
  let location := place.location.getD emptyLocation
  orQ location.latitude location.lat

/-- Resolved longitude:
`location.get("longitude") or location.get("lng")`. -/
def resolvedLng (place : RawPlace) : Option ℚ :=
  let location := place.location.getD emptyLocation
  orQ location.longitude location.lng

/-- A latitude/longitude pair attached to a normalized place. -/
structure Coordinates where
  latitude : ℚ
  longitude : ℚ
deriving DecidableEq, Repr

/-- The canonical normalized place record. -/
structure NormalizedPlace where
  place_id : Option Str
  name : Option Str
  address : Option Str
  coordinates : Option Coordinates
  rating : Option ℚ
  user_ratings_total : Option ℚ
  price_level : Option Str
  types : List Str
  phone : Option Str
  website : Option Str
  opening_hours : Option Str
  photos : List Str
  source : Str
deriving DecidableEq, Repr

/-- `_normalize_place_data`: resolve each canonical field from its
preferred provider field with `or`-fallback to the legacy one;
`coordinates` is populated only when the resolved latitude and longitude
are both truthy (so a literal `0.0` coordinate counts as absent). -/
def _normalize_place_data (place : RawPlace)
    (source : Str := "Google Places API".data) : NormalizedPlace :=
  let lat := resolvedLat place
  let lng := resolvedLng place
  let name :=
    match place.displayName with
    | .obj text => text
    | .plain s => orS (some s) place.name
    | .absent => orS none place.name
  { place_id := orS place.id place.place_id
    name := name
    address := orS place.formattedAddress place.address
    coordinates :=
      if qTruthy lat && qTruthy lng then
        some ⟨lat.getD 0, lng.getD 0⟩
      else none
    rating := place.rating
    user_ratings_total := orQ place.userRatingCount place.user_rating_count
    price_level := orS place.priceLevel place.price_level
    types := place.types.getD []
    phone := orS place.internationalPhoneNumber place.phone
    website := orS place.websiteUri place.website
    opening_hours := orS place.currentOpeningHours place.opening_hours
    photos := place.photos.getD []
    source := source }

/-- The stop-set of generic lodging words (named `common` in the
source). -/
def commonWords : Finset Str :=
  { "hotel".data, "inn".data, "resort".data, "lodge".data,
    "suites".data, "palace".data, "grand".data }

/-- The word-set stage of `_calculate_name_similarity`: `0` if either
set (after stop-word removal) is empty, otherwise Jaccard similarity
(`|∩| / |∪|`) with a `0.2` bonus when the intersection has at least two
words, capped at `1`. -/
def jaccardScore (words1 words2 : Finset Str) : ℚ :=
  if words1 = ∅ ∨ words2 = ∅ then 0
  else
    min
      (if 2 ≤ (words1 ∩ words2).card then
        ((words1 ∩ words2).card : ℚ) / ((words1 ∪ words2).card : ℚ) + 2 / 10
      else ((words1 ∩ words2).card : ℚ) / ((words1 ∪ words2).card : ℚ))
      1

/-- The rule chain of `_calculate_name_similarity` on lowered, stripped
names: exact match `1`, substring `0.8`, otherwise the word-set stage
over the whitespace word sets minus the stop-set. -/
def simCore (n1 n2 : Str) : ℚ :=
  if n1 = n2 then 1
  else if pySubstr n1 n2 || pySubstr n2 n1 then 8 / 10
  else
    jaccardScore ((pyWords n1).toFinset \ commonWords)
      ((pyWords n2).toFinset \ commonWords)

/-- `_calculate_name_similarity`: 0 for absent/empty names, otherwise
the rule chain on the lower-cased, stripped names. -/
def _calculate_name_similarity (name1 name2 : Option Str) : ℚ :=
  if !sTruthy name1 || !sTruthy name2 then 0
  else
    simCore (pyStrip (pyLower (name1.getD [])))
      (pyStrip (pyLower (name2.getD [])))

/-! ## `hotels_agent/tools.py`: `hotels_search` -/

/-- A Google-Places wrapper response: either it carries an `"error"` key
(the wrappers catch their own exceptions and return `{"error": ...}`)
or a `places` list (`response.get("places", [])` defaulting to `[]`). -/
structure ProviderResponse where
  error : Option Str
  places : List RawPlace
deriving DecidableEq, Repr

/-- `round(q, 3)` on the kilometre distance.  (CPython rounds the
binary64 value half-to-even; the model rounds the exact rational,
which agrees away from the measure-zero tie cases.) -/
def round3 (q : ℚ) : ℚ := (round (q * 1000) : ℤ) / 1000

/-- `round(q * 1000)` metres, nearest integer. -/
def roundMeters (q : ℚ) : ℤ := round (q * 1000)

/-- The `distance_from_center` object attached to nearby results. -/
structure DistanceInfo where
  km : ℚ
  meters : ℤ
deriving DecidableEq, Repr

/-- A nearby-search result: a normalized place plus its
`distance_from_center`. -/
structure NearbyPlace where
  base : NormalizedPlace
  distance_from_center : DistanceInfo
deriving DecidableEq, Repr

/-- The shapes `hotels_search` can return: a by-location success, a
nearby success, or an `{status: "error", error, results: []}` value. -/
inductive SearchResult
  | locationOk (results : List NormalizedPlace) (total_found : Nat)
      (search_location : Str) (min_rating : ℚ)
  | nearbyOk (results : List NearbyPlace) (total_found : Nat)
      (search_center : ℚ × ℚ) (search_radius_km : ℚ) (min_rating : ℚ)
  | err (msg : Str)
deriving DecidableEq, Repr

/-- A normalized place with the rounded `distance_from_center` attached
(the nearby loop computes `distance_km = _haversine_km(center, place)`
and stores `{km: round(d, 3), meters: round(d * 1000)}`). -/
def attachDistance (hav : ℚ → ℚ → ℚ → ℚ → ℚ) (latitude longitude : ℚ)
    (place : RawPlace) (c : Coordinates) : NearbyPlace :=
  ⟨_normalize_place_data place,
    ⟨round3 (hav latitude longitude c.latitude c.longitude),
      roundMeters (hav latitude longitude c.latitude c.longitude)⟩⟩

/-- The nearby-branch loop body: normalize, keep only places with
coordinates, attach the rounded `distance_from_center`, and keep the
result when its rating is absent or at least `min_rating`. -/
def nearbyCandidate (hav : ℚ → ℚ → ℚ → ℚ → ℚ) (latitude longitude min_rating : ℚ)
    (place : RawPlace) : Option NearbyPlace :=
  match (_normalize_place_data place).coordinates with
  | none => none
  | some c =>
      match (_normalize_place_data place).rating with
      | none => some (attachDistance hav latitude longitude place c)
      | some r =>
          if min_rating ≤ r then
            some (attachDistance hav latitude longitude place c)
          else none

/-- `hotels_search`, with the great-circle distance `_haversine_km`
abstracted as the parameter `hav` (its transcendental floating-point
body is not modelled; every property proved here holds for any distance
function) and the two provider calls supplied as responses.
`max_results` and the price/open-now filters only shape the provider
request, so they do not appear in the post-processing modelled here. -/
def hotels_search (hav : ℚ → ℚ → ℚ → ℚ → ℚ)
    (location : Option Str) (latitude longitude : Option ℚ)
    (min_rating : Option ℚ) (radius : Option ℚ)
    (textResp nearbyResp : ProviderResponse) : SearchResult :=
  let min_rating := min_rating.getD 0
  let radius := radius.getD 2000
  match location with
  | some loc =>
      match textResp.error with
      | some e => .err ("Search failed: ".data ++ e)
      | none =>
          let results := textResp.places.filterMap fun place =>
            let normalized := _normalize_place_data place
            if normalized.coordinates.isSome then some normalized else none
          .locationOk results results.length loc min_rating
  | none =>
      match latitude, longitude with
      | some la, some lo =>
          match nearbyResp.error with
          | some e => .err ("Nearby search failed: ".data ++ e)
          | none =>
              let results := nearbyResp.places.filterMap
                (nearbyCandidate hav la lo min_rating)
              let results := List.insertionSort
                (fun a b => a.distance_from_center.km ≤ b.distance_from_center.km)
                results
              .nearbyOk results results.length (la, lo) (radius / 1000) min_rating
      | _, _ =>
          .err "Either `location` or (`latitude` & `longitude`) must be provided".data

/-- `result.get("results", [])` on a `hotels_search` return value (error
dictionaries carry `results: []`; a nearby result list is projected to
its normalized places, a case `hotels_analyze` never reaches since it
passes no coordinates). -/
def searchResults : SearchResult → List NormalizedPlace
  | .locationOk results _ _ _ => results
  | .nearbyOk results _ _ _ _ => results.map NearbyPlace.base
  | .err _ => []

/-! ## `hotels_agent/tools.py`: `hotels_analyze` (comprehensive mode) -/

/-- The `comprehensive` analyze result:
`{"status": "success", "comprehensive_results": ...}`. -/
structure ComprehensiveResult where
  status : Str
  comprehensive_results : List NormalizedPlace
deriving DecidableEq, Repr

/-- `hotels_analyze(mode="comprehensive")`: delegate to the by-location
search (`max_results=5` only caps the provider request) and repackage
`base.get("results", [])` under an unconditional `"success"` status. -/
def hotels_analyze_comprehensive (hav : ℚ → ℚ → ℚ → ℚ → ℚ)
    (location : Option Str) (textResp nearbyResp : ProviderResponse) :
    ComprehensiveResult :=
  let base := hotels_search hav location none none none none textResp nearbyResp
  ⟨"success".data, searchResults base⟩

/-! ## `hotels_agent/tools.py`: `hotel_details_and_prices` -/

/-- Outcome of one outbound HTTP call: the library raised (timeout,
non-2xx after `raise_for_status`, bad JSON, ...) or produced a payload. -/
inductive HttpResult (α : Type)
  | exc (msg : Str)
  | ok (v : α)
deriving DecidableEq, Repr

/-- `%Y-%m-%d` rendering used by `_validate_dates`. -/
def strftimeYMD (d : Date) : Str :=
  pad4 d.year ++ '-' :: pad2 d.month ++ '-' :: pad2 d.day

/-- The `%Y-%m-%d` format `_validate_dates` parses with. -/
def ymdDash : DateFmt := ⟨'-', .ymd⟩

/-- `_validate_dates`: unparseable dates fall back to a default stay of
`today + 7 days` for 5 nights; a check-in not after `today` is replaced
by the same default; a check-out not after check-in is pushed one day
past it.  (`datetime.now()` carries a time of day, so a check-in on
`today` itself compares `<= now` except exactly at midnight; the model
compares dates.) -/
def _validate_dates (today : Date) (check_in check_out : Str) : Str × Str :=
  match strptimeDate? ymdDash check_in, strptimeDate? ymdDash check_out with
  | some cin, some cout =>
      if !dateLt today cin then
        let cin' := addDays today 7
        (strftimeYMD cin', strftimeYMD (addDays cin' 5))
      else if !dateLt cin cout then
        (strftimeYMD cin, strftimeYMD (addDays cin 1))
      else (strftimeYMD cin, strftimeYMD cout)
  | _, _ =>
      let dci := addDays today 7
      (strftimeYMD dci, strftimeYMD (addDays dci 5))

/-- A `google_places_place_details` response: the payload is the place
object itself, or an `{"error": ...}` dictionary. -/
structure DetailsPayload where
  error : Option Str
  place : RawPlace
deriving DecidableEq, Repr

/-- The `details_ret` sub-result. -/
structure DetailsRet where
  status : Str
  error : Option Str
  result : Option NormalizedPlace
  reviews : Option (List Str)
deriving DecidableEq, Repr

/-- A SerpAPI pricing payload: an `{"error": ...}` key or a
`properties` list (opaque items). -/
structure PricesPayload where
  error : Option Str
  properties : List Str
deriving DecidableEq, Repr

/-- The `prices_ret` sub-result. -/
structure PricesRet where
  status : Str
  error : Option Str
  results : List Str
deriving DecidableEq, Repr

/-- The combined `hotel_details_and_prices` return value. -/
structure CombinedResult where
  status : Str
  details : Option DetailsRet
  prices : Option PricesRet
deriving DecidableEq, Repr

/-- The details sub-operation (`details_ret`): runs only when `place_id`
is truthy; a raised exception or an `"error"` payload each become an
error sub-result carrying its own message. -/
def detailsSub (place_id : Option Str)
    (include_photos include_reviews : Option Bool)
    (detailsResp : HttpResult DetailsPayload) : Option DetailsRet :=
  if sTruthy place_id then
    some
      (match detailsResp with
      | .exc e => ⟨"error".data, some e, none, none⟩
      | .ok payload =>
          match payload.error with
          | some e =>
              ⟨"error".data, some ("Details fetch failed: ".data ++ e),
                none, none⟩
          | none =>
              let include_photos := include_photos.getD true
              let include_reviews := include_reviews.getD true
              let normalized := _normalize_place_data payload.place
              let normalized :=
                if include_photos then
                  { normalized with photos := payload.place.photos.getD [] }
                else normalized
              ⟨"success".data, none, some normalized,
                if include_reviews then some (payload.place.reviews.getD [])
                else none⟩)
  else none

/-- The pricing sub-operation (`prices_ret`): runs only when both dates
are truthy; a missing API key, a raised exception, and an `"error"`
payload each become an error sub-result. -/
def pricesSub (today : Date) (check_in check_out : Option Str)
    (apiKey : Option Str) (pricesResp : HttpResult PricesPayload) :
    Option PricesRet :=
  if sTruthy check_in && sTruthy check_out then
    let _dates := _validate_dates today (check_in.getD []) (check_out.getD [])
    some
      (if !sTruthy apiKey then
        ⟨"error".data, some "SERPAPI_KEY missing in .env".data, []⟩
      else
        match pricesResp with
        | .exc e => ⟨"error".data, some e, []⟩
        | .ok payload =>
            match payload.error with
            | some e => ⟨"error".data, some e, []⟩
            | none => ⟨"success".data, none, payload.properties⟩)
  else none

/-- The overall-status expression of `hotel_details_and_prices`:
`"success" if ((not details_ret or details_ret["status"] == "success")
and (not prices_ret or prices_ret["status"] == "success")) else
"partial"`. -/
def combineStatus (details_ret : Option DetailsRet)
    (prices_ret : Option PricesRet) : Str :=
  if (match details_ret with
      | none => true
      | some d => d.status == "success".data) &&
     (match prices_ret with
      | none => true
      | some p => p.status == "success".data) then
    "success".data
  else "partial".data

/-- `hotel_details_and_prices`: the details sub-operation runs when
`place_id` is truthy, the pricing sub-operation when both dates are
truthy; each failure is captured in its own sub-result; the overall
status combines them. -/
def hotel_details_and_prices (today : Date) (place_id : Option Str)
    (include_photos include_reviews : Option Bool)
    (detailsResp : HttpResult DetailsPayload)
    (check_in check_out : Option Str) (apiKey : Option Str)
    (pricesResp : HttpResult PricesPayload) : CombinedResult :=
  let details_ret := detailsSub place_id include_photos include_reviews detailsResp
  let prices_ret := pricesSub today check_in check_out apiKey pricesResp
  ⟨combineStatus details_ret prices_ret, details_ret, prices_ret⟩

/-! ## `planner_agent/tools.py`: `validate_and_save_itinerary` -/

/-- What `json.loads` exposes of the parsed document: its top-level keys
and the nested hotel name used for the archive filename. -/
structure JsonDoc where
  keys : List Str
  hotel_name : Option Str
deriving DecidableEq, Repr

/-- The `{status, message, file_path}` dictionary the tool returns. -/
structure SaveResult where
  status : Str
  message : Str
  file_path : Str
deriving DecidableEq, Repr

/-- A save result together with the list of file paths actually
written. -/
structure SaveOutcome where
  result : SaveResult
  writes : List Str
deriving DecidableEq, Repr

/-- Archive-filename sanitization: keep alphanumerics, spaces, `-`, `_`;
`rstrip()`; replace spaces with underscores. -/
def sanitizeHotelName (s : Str) : Str :=
  let kept := s.filter fun c => c.isAlphanum || c = ' ' || c = '-' || c = '_'
  let kept := (kept.reverse.dropWhile Char.isWhitespace).reverse
  kept.map fun c => if c = ' ' then '_' else c

/-- `validate_and_save_itinerary`: the JSON parse outcome stands in for
`json.loads` (a `JSONDecodeError` becomes the `.error` case), `timestamp`
for `datetime.now().strftime(...)`, and `ioFail = some (i, msg)` for an
exception raised by the `i`-th file write.  Paths are modelled relative
to the project root.  Validation failures return a structured error
before any write happens. -/
def validate_and_save_itinerary (parsed : Except Str JsonDoc)
    (timestamp : Str) (ioFail : Option (Nat × Str)) : SaveOutcome :=
  match parsed with
  | .error e =>
      ⟨⟨"error".data, "Invalid JSON format: ".data ++ e, "none".data⟩, []⟩
  | .ok doc =>
      if "hotel_information".data ∉ doc.keys then
        ⟨⟨"error".data, "Missing hotel_information in JSON".data, "none".data⟩, []⟩
      else if "day_plans".data ∉ doc.keys then
        ⟨⟨"error".data, "Missing day_plans in JSON".data, "none".data⟩, []⟩
      else
        let hotel_name := doc.hotel_name.getD "unknown_hotel".data
        let safe := sanitizeHotelName hotel_name
        let archive_filename :=
          "itinerary_".data ++ safe ++ "_".data ++ timestamp ++ ".json".data
        let archive_path := "output/".data ++ archive_filename
        let frontend_path := "frontend/output.json".data
        let paths := [archive_path, frontend_path]
        match ioFail with
        | some (i, msg) =>
            ⟨⟨"error".data, "Error saving itinerary: ".data ++ msg, "none".data⟩,
              paths.take i⟩
        | none =>
            ⟨⟨"success".data,
              "Itinerary saved to archive (".data ++ archive_filename ++
                ") and frontend (output.json)".data,
              "archive: ".data ++ archive_path ++ ", frontend: ".data ++
                frontend_path⟩,
              paths⟩

/-! ## Supporting lemmas: date ordering -/

theorem dateLt_irrefl (d : Date) : dateLt d d = false := by
  simp [dateLt]

theorem notDateLt_trans {a b c : Date} (h1 : dateLt b a = false)
    (h2 : dateLt c b = false) : dateLt c a = false := by
  simp only [dateLt, Bool.or_eq_false_iff, Bool.and_eq_false_iff,
    decide_eq_false_iff_not, beq_eq_false_iff_ne, ne_eq] at h1 h2 ⊢
  omega

theorem next_not_lt (d : Date) : dateLt d.next d = false := by
  unfold Date.next
  split
  · simp [dateLt]
  · split <;> simp [dateLt]

theorem addDays_not_lt (d : Date) (n : Nat) :
    dateLt (addDays d n) d = false := by
  induction n with
  | zero => exact dateLt_irrefl d
  | succ n ih => exact notDateLt_trans ih (next_not_lt (addDays d n))

/-! ## Claim C4: `DateRange` end-date derivation and ordering -/

/-- C4: a `DateRange` built without `end_date` derives it as
`start_date + number_of_days` days, and validates whenever that sum
stays within `date.max` (year 9999) — the derived end is never before
the start; past `date.max` the derivation itself fails with the
`OverflowError` that `date.__add__` raises; a given `end_date` before
`start_date` fails validation; concretely, start `01.01.2025` with
`number_of_days = 3` yields end `04.01.2025`. -/
theorem dateRange_end_derivation (start e : Date) (n : Nat) :
    (1 ≤ n → (addDays start n).year ≤ 9999 →
      mkDateRange start none n = .ok ⟨start, addDays start n, n⟩) ∧
    (1 ≤ n → 9999 < (addDays start n).year →
      mkDateRange start none n =
        .error "OverflowError: date value out of range".data) ∧
    (dateLt e start = true → exceptOk (mkDateRange start (some e) n) = false) ∧
    (1 ≤ n → dateLt e start = true →
      mkDateRange start (some e) n =
        .error "end_date cannot be before start_date".data) ∧
    (toDate? "01.01.2025".data = some ⟨2025, 1, 1⟩) ∧
    (mkDateRange ⟨2025, 1, 1⟩ none 3 = .ok ⟨⟨2025, 1, 1⟩, ⟨2025, 1, 4⟩, 3⟩) ∧
    (strftimeDMY ⟨2025, 1, 4⟩ = "04.01.2025".data) := by
  refine ⟨?_, ?_, ?_, ?_, ?_, ?_, ?_⟩
  · intro hn hle
    unfold mkDateRange
    rw [if_neg (by omega)]
    have ha : addDaysChecked start n = some (addDays start n) := by
      unfold addDaysChecked
      rw [if_neg (not_lt.mpr hle)]
    simp only [ha, addDays_not_lt start n]
    rfl
  · intro hn hov
    unfold mkDateRange
    rw [if_neg (by omega)]
    have ha : addDaysChecked start n = none := by
      unfold addDaysChecked
      rw [if_pos hov]
    simp only [ha]
  · intro hlt
    unfold mkDateRange
    by_cases hn : n < 1
    · rw [if_pos hn]; rfl
    · rw [if_neg hn]
      simp only [hlt]
      rfl
  · intro hn hlt
    unfold mkDateRange
    rw [if_neg (by omega)]
    simp only [hlt]
    rfl
  · decide
  · rfl
  · decide

/-- C4 witness: the universal parts instantiated at concrete inputs
(start `01.01.2025`, three days; start `31.12.9999`, three days,
overflowing `date.max`; end `01.01.2025` before start `05.01.2025`). -/
theorem dateRange_end_derivation_witness :
    mkDateRange ⟨2025, 1, 1⟩ none 3 = .ok ⟨⟨2025, 1, 1⟩, addDays ⟨2025, 1, 1⟩ 3, 3⟩ ∧
    mkDateRange ⟨9999, 12, 31⟩ none 3 =
      .error "OverflowError: date value out of range".data ∧
    exceptOk (mkDateRange ⟨2025, 1, 5⟩ (some ⟨2025, 1, 1⟩) 3) = false :=
  ⟨(dateRange_end_derivation ⟨2025, 1, 1⟩ ⟨2025, 1, 1⟩ 3).1 (by decide) (by decide),
    (dateRange_end_derivation ⟨9999, 12, 31⟩ ⟨2025, 1, 1⟩ 3).2.1 (by decide)
      (by decide),
    (dateRange_end_derivation ⟨2025, 1, 5⟩ ⟨2025, 1, 1⟩ 3).2.2.1 (by decide)⟩

/-! ## Claim C9: persistence rejects invalid input before any write -/

/-- C9: malformed JSON input, or a document missing `hotel_information`
or `day_plans`, yields `{status: "error"}` with a message naming the
problem, and no file write is performed. -/
theorem save_rejects_invalid_before_write (timestamp : Str)
    (ioFail : Option (Nat × Str)) :
    (∀ e, (validate_and_save_itinerary (.error e) timestamp ioFail).result.status
          = "error".data ∧
        (validate_and_save_itinerary (.error e) timestamp ioFail).result.message
          = "Invalid JSON format: ".data ++ e ∧
        (validate_and_save_itinerary (.error e) timestamp ioFail).writes = []) ∧
    (∀ doc : JsonDoc, "hotel_information".data ∉ doc.keys →
        validate_and_save_itinerary (.ok doc) timestamp ioFail =
          ⟨⟨"error".data, "Missing hotel_information in JSON".data, "none".data⟩,
            []⟩) ∧
    (∀ doc : JsonDoc, "day_plans".data ∉ doc.keys →
        ((validate_and_save_itinerary (.ok doc) timestamp ioFail).result.status
            = "error".data ∧
          ((validate_and_save_itinerary (.ok doc) timestamp ioFail).result.message
              = "Missing hotel_information in JSON".data ∨
            (validate_and_save_itinerary (.ok doc) timestamp ioFail).result.message
              = "Missing day_plans in JSON".data) ∧
          (validate_and_save_itinerary (.ok doc) timestamp ioFail).writes = [])) := by
  refine ⟨fun e => ⟨rfl, rfl, rfl⟩, ?_, ?_⟩
  · intro doc h
    simp only [validate_and_save_itinerary]
    rw [if_pos h]
  · intro doc h
    simp only [validate_and_save_itinerary]
    by_cases hh : "hotel_information".data ∈ doc.keys
    · rw [if_neg (not_not_intro hh), if_pos h]
      exact ⟨rfl, Or.inr rfl, rfl⟩
    · rw [if_pos hh]
      exact ⟨rfl, Or.inl rfl, rfl⟩

/-- C9 witness: a malformed input and a document lacking `day_plans`,
each rejected with no write. -/
theorem save_rejects_invalid_before_write_witness :
    ((validate_and_save_itinerary (.error "Expecting value".data)
        "20250101_120000".data none).writes = []) ∧
    ((validate_and_save_itinerary
        (.ok ⟨["hotel_information".data], some "Grand Hotel".data⟩)
        "20250101_120000".data none).result.status = "error".data ∧
      ((validate_and_save_itinerary
          (.ok ⟨["hotel_information".data], some "Grand Hotel".data⟩)
          "20250101_120000".data none).result.message
          = "Missing hotel_information in JSON".data ∨
        (validate_and_save_itinerary
          (.ok ⟨["hotel_information".data], some "Grand Hotel".data⟩)
          "20250101_120000".data none).result.message
          = "Missing day_plans in JSON".data) ∧
      (validate_and_save_itinerary
        (.ok ⟨["hotel_information".data], some "Grand Hotel".data⟩)
        "20250101_120000".data none).writes = []) :=
  ⟨((save_rejects_invalid_before_write "20250101_120000".data none).1
      "Expecting value".data).2.2,
    (save_rejects_invalid_before_write "20250101_120000".data none).2.2
      ⟨["hotel_information".data], some "Grand Hotel".data⟩ (by decide)⟩

/-! ## Claim C10: comprehensive analyze always reports success -/

/-- C10: `hotels_analyze` in comprehensive mode always returns status
`"success"`, with `comprehensive_results` equal to the delegated
by-location search's `results` list; when the delegated search errors
(or no location was given at all), the error message is dropped and
`comprehensive_results` is the empty list. -/
theorem analyze_comprehensive_swallows_errors (hav : ℚ → ℚ → ℚ → ℚ → ℚ)
    (location : Option Str) (textResp nearbyResp : ProviderResponse) :
    (hotels_analyze_comprehensive hav location textResp nearbyResp).status
      = "success".data ∧
    (hotels_analyze_comprehensive hav location textResp nearbyResp).comprehensive_results
      = searchResults
          (hotels_search hav location none none none none textResp nearbyResp) ∧
    (location = none ∨ textResp.error.isSome = true →
      (hotels_analyze_comprehensive hav location textResp nearbyResp).comprehensive_results
        = []) := by
  refine ⟨rfl, rfl, ?_⟩
  intro h
  unfold hotels_analyze_comprehensive hotels_search
  rcases h with h | h
  · subst h; rfl
  · cases location with
    | none => rfl
    | some loc =>
        cases he : textResp.error with
        | none => rw [he] at h; simp at h
        | some e => simp only [he]; rfl

/-- C10 witness: a failing delegated search still yields status
`"success"` with an empty result list. -/
theorem analyze_comprehensive_swallows_errors_witness :
    (hotels_analyze_comprehensive (fun _ _ _ _ => 0) (some "Istanbul".data)
        ⟨some "HTTP 500".data, []⟩ ⟨none, []⟩).status = "success".data ∧
    (hotels_analyze_comprehensive (fun _ _ _ _ => 0) (some "Istanbul".data)
        ⟨some "HTTP 500".data, []⟩ ⟨none, []⟩).comprehensive_results = [] :=
  ⟨(analyze_comprehensive_swallows_errors (fun _ _ _ _ => 0) (some "Istanbul".data)
      ⟨some "HTTP 500".data, []⟩ ⟨none, []⟩).1,
    (analyze_comprehensive_swallows_errors (fun _ _ _ _ => 0) (some "Istanbul".data)
      ⟨some "HTTP 500".data, []⟩ ⟨none, []⟩).2.2 (Or.inr rfl)⟩

/-! ## Claim C7: combined details-and-prices status -/

/-- The status logic of `combineStatus`, stated over arbitrary
sub-results. -/
theorem combineStatus_spec (d : Option DetailsRet) (p : Option PricesRet) :
    (combineStatus d p = "success".data ∨ combineStatus d p = "partial".data) ∧
    (combineStatus d p = "success".data ↔
      (∀ dr, d = some dr → dr.status = "success".data) ∧
      (∀ pr, p = some pr → pr.status = "success".data)) := by
  unfold combineStatus
  constructor
  · split
    · exact Or.inl rfl
    · exact Or.inr rfl
  · split
    · rename_i hcond
      simp only [Bool.and_eq_true] at hcond
      constructor
      · intro _
        constructor
        · intro dr hdr
          have := hcond.1
          rw [hdr] at this
          simpa using this
        · intro pr hpr
          have := hcond.2
          rw [hpr] at this
          simpa using this
      · intro _; rfl
    · rename_i hcond
      constructor
      · intro habs
        exact absurd habs (by decide)
      · intro ⟨hd, hp⟩
        exfalso
        apply hcond
        rw [Bool.and_eq_true]
        constructor
        · cases hdd : d with
          | none => rfl
          | some dr => simpa using hd dr hdd
        · cases hpp : p with
          | none => rfl
          | some pr => simpa using hp pr hpp

/-- C7: the overall status of `hotel_details_and_prices` is `"success"`
exactly when every requested sub-operation succeeded (an unrequested
sub-operation is `none` and does not count), is `"partial"` whenever
exactly one requested sub-operation failed, and the returned value
carries both sub-results (with their own statuses and errors)
unchanged. -/
theorem details_and_prices_status (today : Date) (place_id : Option Str)
    (include_photos include_reviews : Option Bool)
    (detailsResp : HttpResult DetailsPayload)
    (check_in check_out : Option Str) (apiKey : Option Str)
    (pricesResp : HttpResult PricesPayload) :
    (hotel_details_and_prices today place_id include_photos include_reviews
        detailsResp check_in check_out apiKey pricesResp).details
      = detailsSub place_id include_photos include_reviews detailsResp ∧
    (hotel_details_and_prices today place_id include_photos include_reviews
        detailsResp check_in check_out apiKey pricesResp).prices
      = pricesSub today check_in check_out apiKey pricesResp ∧
    ((hotel_details_and_prices today place_id include_photos include_reviews
        detailsResp check_in check_out apiKey pricesResp).status = "success".data ↔
      (∀ dr, detailsSub place_id include_photos include_reviews detailsResp
          = some dr → dr.status = "success".data) ∧
      (∀ pr, pricesSub today check_in check_out apiKey pricesResp
          = some pr → pr.status = "success".data)) ∧
    (∀ dr pr,
      detailsSub place_id include_photos include_reviews detailsResp = some dr →
      pricesSub today check_in check_out apiKey pricesResp = some pr →
      dr.status ≠ "success".data → pr.status = "success".data →
      (hotel_details_and_prices today place_id include_photos include_reviews
          detailsResp check_in check_out apiKey pricesResp).status
        = "partial".data) ∧
    (∀ dr pr,
      detailsSub place_id include_photos include_reviews detailsResp = some dr →
      pricesSub today check_in check_out apiKey pricesResp = some pr →
      dr.status = "success".data → pr.status ≠ "success".data →
      (hotel_details_and_prices today place_id include_photos include_reviews
          detailsResp check_in check_out apiKey pricesResp).status
        = "partial".data) := by
  refine ⟨rfl, rfl,
    (combineStatus_spec (detailsSub place_id include_photos include_reviews detailsResp)
      (pricesSub today check_in check_out apiKey pricesResp)).2, ?_, ?_⟩
  · intro dr pr hd hp hds hps
    have hspec := combineStatus_spec
      (detailsSub place_id include_photos include_reviews detailsResp)
      (pricesSub today check_in check_out apiKey pricesResp)
    rcases hspec.1 with hs | hs
    · exfalso
      exact hds ((hspec.2.mp hs).1 dr hd)
    · exact hs
  · intro dr pr hd hp hds hps
    have hspec := combineStatus_spec
      (detailsSub place_id include_photos include_reviews detailsResp)
      (pricesSub today check_in check_out apiKey pricesResp)
    rcases hspec.1 with hs | hs
    · exfalso
      exact hps ((hspec.2.mp hs).2 pr hp)
    · exact hs

/-- C7 witness: details requested and failing, pricing requested and
succeeding, yields status `"partial"`. -/
theorem details_and_prices_status_witness :
    (hotel_details_and_prices ⟨2025, 1, 1⟩ (some "pid".data) none none
        (.exc "timeout".data) (some "2025-06-01".data) (some "2025-06-05".data)
        (some "key".data) (.ok ⟨none, []⟩)).status = "partial".data :=
  (details_and_prices_status ⟨2025, 1, 1⟩ (some "pid".data) none none
      (.exc "timeout".data) (some "2025-06-01".data) (some "2025-06-05".data)
      (some "key".data) (.ok ⟨none, []⟩)).2.2.2.1
    ⟨"error".data, some "timeout".data, none, none⟩
    ⟨"success".data, none, []⟩ rfl rfl (by decide) rfl

/-! ## Claim C6: coordinates populated iff both resolved values truthy -/

/-- C6: a normalized place's `coordinates` field is populated exactly
when both the resolved latitude and longitude are truthy; in particular
a latitude or longitude that is `null`, absent, or exactly `0.0` leaves
`coordinates = null`; and normalizing the all-absent payload yields only
`null`/empty-list fields (normalization is total, so it never raises on
missing optional fields). -/
theorem normalize_coordinates_truthy (place : RawPlace) (source : Str) :
    ((_normalize_place_data place source).coordinates.isSome
        = (qTruthy (resolvedLat place) && qTruthy (resolvedLng place))) ∧
    (resolvedLat place = some 0 ∨ resolvedLat place = none ∨
        resolvedLng place = some 0 ∨ resolvedLng place = none →
      (_normalize_place_data place source).coordinates = none) ∧
    (_normalize_place_data emptyRawPlace "Google Places API".data =
      ⟨none, none, none, none, none, none, none, [], none, none, none, [],
        "Google Places API".data⟩) := by
  refine ⟨?_, ?_, rfl⟩
  · simp only [_normalize_place_data]
    split
    · rename_i h; simp [h]
    · rename_i h
      rw [Option.isSome_none, Bool.eq_false_iff.mpr h]
  · intro h
    simp only [_normalize_place_data]
    have hfalse : (qTruthy (resolvedLat place) && qTruthy (resolvedLng place)) = false := by
      rcases h with h | h | h | h <;> rw [h] <;> simp [qTruthy]
    rw [if_neg (by rw [hfalse]; exact Bool.false_ne_true)]

/-- C6 witness: a payload whose longitude is exactly `0.0` (equator /
prime-meridian edge case; the `or`-fallback then resolves it to the
absent legacy `lng` field) gets `coordinates = null`. -/
theorem normalize_coordinates_truthy_witness :
    (_normalize_place_data
        { emptyRawPlace with location := some ⟨some 41, some 0, none, none⟩ }
        "Google Places API".data).coordinates = none :=
  (normalize_coordinates_truthy
      { emptyRawPlace with location := some ⟨some 41, some 0, none, none⟩ }
      "Google Places API".data).2.1 (Or.inr (Or.inr (Or.inr rfl)))

/-! ## Claim C8: budget coercion and currency upper-casing -/

/-- C8 counterexample: the claim says a non-numeric `budget_amount`
string is "left as-is (construction does not fail on it)", but the
`before` validator returns the unparseable string to pydantic's
`Optional[float]` core validation, which rejects it: constructing
`Preferences` with `budget_amount = "abc"` fails. -/
theorem preferences_budget_string_fails :
    exceptOk (mkPreferences (.str "abc".data) "usd".data) = false := by
  rfl

/-- C8 (amended): a numeric-looking `budget_amount` string is coerced to
its numeric value; a string `float()` cannot parse makes construction
fail with a validation error (it is not kept as-is); non-string budgets
pass through; and `currency` is always upper-cased on input. -/
theorem preferences_budget_coercion (currency : Str) :
    (∀ s q, pyFloat? s = some q →
      mkPreferences (.str s) currency = .ok ⟨some q, pyUpper currency⟩) ∧
    (∀ s, pyFloat? s = none →
      mkPreferences (.str s) currency =
        .error "Input should be a valid number, unable to parse string as a number".data) ∧
    (∀ q, mkPreferences (.num q) currency = .ok ⟨some q, pyUpper currency⟩) ∧
    (mkPreferences .none currency = .ok ⟨none, pyUpper currency⟩) ∧
    (pyUpper "usd".data = "USD".data) := by
  refine ⟨?_, ?_, fun q => rfl, rfl, by decide⟩
  · intro s q h
    simp only [mkPreferences, validateBudget, _coerce_budget, h]
  · intro s h
    simp only [mkPreferences, validateBudget, _coerce_budget, h]

/-- C8 witness: `budget_amount = "250"` is coerced to the number 250 and
`currency = "usd"` is upper-cased; `budget_amount = "abc"` fails. -/
theorem preferences_budget_coercion_witness :
    mkPreferences (.str "250".data) "usd".data =
      .ok ⟨some 250, pyUpper "usd".data⟩ ∧
    mkPreferences (.str "abc".data) "usd".data =
      .error "Input should be a valid number, unable to parse string as a number".data :=
  ⟨(preferences_budget_coercion "usd".data).1 "250".data 250 rfl,
    (preferences_budget_coercion "usd".data).2.1 "abc".data rfl⟩

/-! ## Claim C1: order lists must be exactly `{1..n}` -/

/-- The source's check (`min == 1` and `sorted == range(1, n+1)`) on a
non-empty order list holds exactly when the list is a permutation of
`[1, ..., n]` — i.e. the multiset of order values is `{1..n}` with no
gaps or duplicates, in any insertion order. -/
theorem ordersConsecutive_iff_perm (l : List Int) (hne : l ≠ []) :
    ordersConsecutive l = true ↔
      l.Perm ((List.range' 1 l.length).map Int.ofNat) := by
  haveI : Std.Antisymm (fun x1 x2 : ℤ => x1 ≤ x2) :=
    ⟨fun h1 h2 => le_antisymm h1 h2⟩
  unfold ordersConsecutive
  rw [Bool.and_eq_true, beq_iff_eq, beq_iff_eq]
  constructor
  · rintro ⟨_, hsort⟩
    exact hsort ▸ (List.perm_insertionSort _ l).symm
  · intro hperm
    have hsortedR : List.Sorted (· ≤ ·)
        ((List.range' 1 l.length).map Int.ofNat) :=
      List.Pairwise.map _ (fun a b hab => Int.ofNat_le.mpr (le_of_lt hab))
        (List.pairwise_lt_range' 1 l.length)
    have hsortedL : List.Sorted (· ≤ ·) (List.insertionSort (· ≤ ·) l) :=
      List.sorted_insertionSort _ l
    have heq : List.insertionSort (· ≤ ·) l =
        (List.range' 1 l.length).map Int.ofNat :=
      List.eq_of_perm_of_sorted ((List.perm_insertionSort _ l).trans hperm)
        hsortedL hsortedR
    refine ⟨?_, heq⟩
    rw [List.min?_eq_some_iff (fun a => le_refl a) (fun a b => min_choice a b)
      (fun a b c => le_min_iff)]
    constructor
    · rw [hperm.mem_iff]
      refine List.mem_map.mpr ⟨1, ?_, rfl⟩
      have hlpos : 0 < l.length := List.length_pos.mpr hne
      rw [List.mem_range'_1]
      omega
    · intro b hb
      rw [hperm.mem_iff] at hb
      obtain ⟨m, hm, rfl⟩ := List.mem_map.mp hb
      rw [List.mem_range'_1] at hm
      rw [Int.ofNat_eq_natCast]
      exact_mod_cast hm.1

/-- C1: for a non-empty `places` list, `DayPlan` construction succeeds
exactly when `order ≥ 1` and the multiset of `Place.order` values is
exactly `{1..n}` (any insertion order); for a non-empty `day_plans`
list, `ItineraryResponse` construction succeeds exactly when the
`DayPlan.order` values are exactly `{1..n}`; otherwise construction
fails with a validation error. -/
theorem dayplan_orders_exactly_range :
    (∀ (order : Int) (date : DateLike) (places : List Place) (summary : Str),
      places ≠ [] →
      (exceptOk (mkDayPlan order date places summary) = true ↔
        1 ≤ order ∧
          (places.map Place.order).Perm
            ((List.range' 1 places.length).map Int.ofNat))) ∧
    (∀ (hotel : HotelInformation) (day_plans : List DayPlan),
      day_plans ≠ [] →
      (exceptOk (mkItineraryResponse hotel day_plans) = true ↔
        (day_plans.map DayPlan.order).Perm
          ((List.range' 1 day_plans.length).map Int.ofNat))) := by
  constructor
  · intro order date places summary hne
    have hmapne : places.map Place.order ≠ [] :=
      fun h => hne (List.map_eq_nil_iff.mp h)
    have hiff := ordersConsecutive_iff_perm (places.map Place.order) hmapne
    rw [List.length_map] at hiff
    unfold mkDayPlan
    by_cases horder : order < 1
    · rw [if_pos horder]
      constructor
      · intro h
        exact absurd h (by simp [exceptOk])
      · rintro ⟨h1, -⟩
        omega
    · rw [if_neg horder]
      by_cases hcons : ordersConsecutive (places.map Place.order) = true
      · rw [if_neg (fun h => h.2 hcons)]
        simp only [exceptOk]
        constructor
        · intro _
          exact ⟨by omega, hiff.mp hcons⟩
        · intro _
          trivial
      · rw [if_pos ⟨hne, hcons⟩]
        constructor
        · intro h
          exact absurd h (by simp [exceptOk])
        · rintro ⟨-, hperm⟩
          exact absurd (hiff.mpr hperm) hcons
  · intro hotel day_plans hne
    have hmapne : day_plans.map DayPlan.order ≠ [] :=
      fun h => hne (List.map_eq_nil_iff.mp h)
    have hiff := ordersConsecutive_iff_perm (day_plans.map DayPlan.order) hmapne
    rw [List.length_map] at hiff
    unfold mkItineraryResponse
    by_cases hcons : ordersConsecutive (day_plans.map DayPlan.order) = true
    · rw [if_neg (fun h => h.2 hcons)]
      simp only [exceptOk]
      constructor
      · intro _
        exact hiff.mp hcons
      · intro _
        trivial
    · rw [if_pos ⟨hne, hcons⟩]
      constructor
      · intro h
        exact absurd h (by simp [exceptOk])
      · intro hperm
        exact absurd (hiff.mpr hperm) hcons

/-- C1 witness: a day with places ordered `[2, 1, 3]` (a permutation of
`{1..3}`) validates, and a response whose day orders are `[1, 3]` (a gap)
fails. -/
theorem dayplan_orders_exactly_range_witness :
    exceptOk (mkDayPlan 1 (.str "01.01.2025".data)
      [⟨2, .inr "p2".data, 41, 29, "A".data, none, none, ⟨none, none⟩, .inl 0⟩,
       ⟨1, .inr "p1".data, 41, 29, "B".data, none, none, ⟨none, none⟩, .inl 0⟩,
       ⟨3, .inr "p3".data, 41, 29, "C".data, none, none, ⟨none, none⟩, .inl 0⟩]
      "a day".data) = true ∧
    exceptOk (mkItineraryResponse
      ⟨"H".data, .inr "h".data, 41, 29, none, none, none, none, none, none,
        none, none⟩
      [⟨1, "01.01.2025".data, [], "d1".data⟩,
       ⟨3, "02.01.2025".data, [], "d2".data⟩]) = false :=
  ⟨(dayplan_orders_exactly_range.1 1 (.str "01.01.2025".data)
      [⟨2, .inr "p2".data, 41, 29, "A".data, none, none, ⟨none, none⟩, .inl 0⟩,
       ⟨1, .inr "p1".data, 41, 29, "B".data, none, none, ⟨none, none⟩, .inl 0⟩,
       ⟨3, .inr "p3".data, 41, 29, "C".data, none, none, ⟨none, none⟩, .inl 0⟩]
      "a day".data (by simp)).mpr ⟨by decide, by decide⟩,
    by
      have h := dayplan_orders_exactly_range.2
        ⟨"H".data, .inr "h".data, 41, 29, none, none, none, none, none, none,
          none, none⟩
        [⟨1, "01.01.2025".data, [], "d1".data⟩,
         ⟨3, "02.01.2025".data, [], "d2".data⟩] (by simp)
      rw [Bool.eq_false_iff]
      intro habs
      exact absurd (h.mp habs) (by decide)⟩

/-! ## Claim C5: name-similarity score and examples -/

/-- C5: the similarity score always lies in `[0, 1]`; an absent name on
either side scores `0`; `"Grand Hotel Plaza"` vs `"Hotel Plaza"` scores
at least `0.8` (substring rule); `"Hilton Istanbul"` vs
`"Marriott Ankara"` scores exactly `0` (empty word intersection). -/
theorem similarity_bounds_and_examples :
    (∀ name1 name2, 0 ≤ _calculate_name_similarity name1 name2 ∧
        _calculate_name_similarity name1 name2 ≤ 1) ∧
    (∀ n, _calculate_name_similarity none n = 0 ∧
        _calculate_name_similarity n none = 0) ∧
    8 / 10 ≤ _calculate_name_similarity (some "Grand Hotel Plaza".data)
        (some "Hotel Plaza".data) ∧
    _calculate_name_similarity (some "Hilton Istanbul".data)
        (some "Marriott Ankara".data) = 0 := by
  have hjac : ∀ w1 w2 : Finset Str,
      0 ≤ jaccardScore w1 w2 ∧ jaccardScore w1 w2 ≤ 1 := by
    intro w1 w2
    unfold jaccardScore
    constructor
    · split
      · norm_num
      · refine le_min ?_ (by norm_num)
        split
        · positivity
        · positivity
    · split
      · norm_num
      · exact min_le_right _ _
  have hcore : ∀ n1 n2 : Str, 0 ≤ simCore n1 n2 ∧ simCore n1 n2 ≤ 1 := by
    intro n1 n2
    unfold simCore
    constructor
    · split
      · norm_num
      · split
        · norm_num
        · exact (hjac _ _).1
    · split
      · norm_num
      · split
        · norm_num
        · exact (hjac _ _).2
  refine ⟨?_, ?_, ?_, ?_⟩
  · intro name1 name2
    unfold _calculate_name_similarity
    constructor
    · split
      · norm_num
      · exact (hcore _ _).1
    · split
      · norm_num
      · exact (hcore _ _).2
  · intro n
    constructor <;>
      (unfold _calculate_name_similarity; rw [if_pos (by simp [sTruthy])])
  · unfold _calculate_name_similarity
    rw [if_neg (by decide)]
    rw [(by decide : pyStrip (pyLower ((some "Grand Hotel Plaza".data).getD []))
          = "grand hotel plaza".data),
      (by decide : pyStrip (pyLower ((some "Hotel Plaza".data).getD []))
          = "hotel plaza".data)]
    unfold simCore
    rw [if_neg (by decide), if_pos (by decide)]
  · unfold _calculate_name_similarity
    rw [if_neg (by decide)]
    rw [(by decide : pyStrip (pyLower ((some "Hilton Istanbul".data).getD []))
          = "hilton istanbul".data),
      (by decide : pyStrip (pyLower ((some "Marriott Ankara".data).getD []))
          = "marriott ankara".data)]
    unfold simCore
    rw [if_neg (by decide), if_neg (by decide)]
    unfold jaccardScore
    rw [if_neg (by decide), if_neg (by decide),
      (by decide : (((pyWords "hilton istanbul".data).toFinset \ commonWords) ∩
          ((pyWords "marriott ankara".data).toFinset \ commonWords)).card = 0)]
    rw [Nat.cast_zero, zero_div]
    exact min_eq_left (by norm_num)

/-! ## Supporting lemmas: digits, padding, splitting -/

theorem digitChar_isDigit (n : Nat) : (digitChar n).isDigit = true := by
  unfold digitChar
  rcases (show n % 10 = 0 ∨ n % 10 = 1 ∨ n % 10 = 2 ∨ n % 10 = 3 ∨
      n % 10 = 4 ∨ n % 10 = 5 ∨ n % 10 = 6 ∨ n % 10 = 7 ∨ n % 10 = 8 ∨
      n % 10 = 9 by omega) with h|h|h|h|h|h|h|h|h|h <;> simp only [h] <;> decide

theorem digitChar_val (n : Nat) :
    (digitChar n).toNat - '0'.toNat = n % 10 := by
  unfold digitChar
  rcases (show n % 10 = 0 ∨ n % 10 = 1 ∨ n % 10 = 2 ∨ n % 10 = 3 ∨
      n % 10 = 4 ∨ n % 10 = 5 ∨ n % 10 = 6 ∨ n % 10 = 7 ∨ n % 10 = 8 ∨
      n % 10 = 9 by omega) with h|h|h|h|h|h|h|h|h|h <;> simp only [h] <;> decide

theorem isDigit_ne_seps {c : Char} (h : c.isDigit = true) :
    c ≠ '.' ∧ c ≠ '-' ∧ c ≠ '/' := by
  refine ⟨?_, ?_, ?_⟩ <;> rintro rfl <;> exact absurd h (by decide)

theorem pad2_mem_digit {n : Nat} {c : Char} (hc : c ∈ pad2 n) :
    c.isDigit = true := by
  simp only [pad2, List.mem_cons, List.not_mem_nil, or_false] at hc
  rcases hc with rfl | rfl <;> exact digitChar_isDigit _

theorem pad4_mem_digit {n : Nat} {c : Char} (hc : c ∈ pad4 n) :
    c.isDigit = true := by
  simp only [pad4, List.mem_cons, List.not_mem_nil, or_false] at hc
  rcases hc with rfl | rfl | rfl | rfl <;> exact digitChar_isDigit _

theorem allDigits_pad2 (n : Nat) : allDigits (pad2 n) = true := by
  simp only [allDigits, List.all_eq_true]
  exact fun c hc => pad2_mem_digit hc

theorem allDigits_pad4 (n : Nat) : allDigits (pad4 n) = true := by
  simp only [allDigits, List.all_eq_true]
  exact fun c hc => pad4_mem_digit hc

theorem digitsToNat_pad2 (n : Nat) (h : n ≤ 99) :
    digitsToNat (pad2 n) = n := by
  simp only [digitsToNat, pad2, List.foldl_cons, List.foldl_nil]
  rw [digitChar_val, digitChar_val]
  omega

theorem digitsToNat_pad4 (n : Nat) (h : n ≤ 9999) :
    digitsToNat (pad4 n) = n := by
  simp only [digitsToNat, pad4, List.foldl_cons, List.foldl_nil]
  rw [digitChar_val, digitChar_val, digitChar_val, digitChar_val]
  omega

theorem splitOnChar_append_sep (sep : Char) (xs rest : Str)
    (h : ∀ c ∈ xs, c ≠ sep) :
    splitOnChar sep (xs ++ sep :: rest) = xs :: splitOnChar sep rest := by
  induction xs with
  | nil =>
      simp [splitOnChar]
  | cons c t ih =>
      have hc : c ≠ sep := h c (List.mem_cons_self c t)
      have ht : ∀ c' ∈ t, c' ≠ sep := fun c' hc' => h c' (List.mem_cons_of_mem _ hc')
      simp only [List.cons_append, splitOnChar, List.append_eq]
      rw [if_neg hc, ih ht]

theorem splitOnChar_no_sep (sep : Char) (xs : Str)
    (h : ∀ c ∈ xs, c ≠ sep) :
    splitOnChar sep xs = [xs] := by
  induction xs with
  | nil => rfl
  | cons c t ih =>
      have hc : c ≠ sep := h c (List.mem_cons_self c t)
      have ht : ∀ c' ∈ t, c' ≠ sep := fun c' hc' => h c' (List.mem_cons_of_mem _ hc')
      simp only [splitOnChar]
      rw [if_neg hc, ih ht]

/-! ## Supporting lemmas: `strptime` inverts `strftime` on valid dates -/

theorem date_valid_bounds {d : Date} (h : d.valid = true) :
    1 ≤ d.year ∧ d.year ≤ 9999 ∧ 1 ≤ d.month ∧ d.month ≤ 12 ∧
      1 ≤ d.day ∧ d.day ≤ daysInMonth d.year d.month := by
  simp only [Date.valid, Bool.and_eq_true, decide_eq_true_eq] at h
  tauto

theorem daysInMonth_le_31 (y m : Nat) : daysInMonth y m ≤ 31 := by
  unfold daysInMonth
  split
  · split <;> omega
  · split <;> omega

theorem strptime_strftime (d : Date) (h : d.valid = true) :
    strptimeDate? ⟨'.', .dmy⟩ (strftimeDMY d) = some d := by
  obtain ⟨hy1, hy2, hm1, hm2, hd1, hd2⟩ := date_valid_bounds h
  have hd31 : d.day ≤ 31 := le_trans hd2 (daysInMonth_le_31 _ _)
  have hsplit : splitOnChar '.' (strftimeDMY d) =
      [pad2 d.day, pad2 d.month, pad4 d.year] := by
    unfold strftimeDMY
    rw [List.append_assoc, List.cons_append]
    rw [splitOnChar_append_sep '.' (pad2 d.day) _
        (fun c hc => (isDigit_ne_seps (pad2_mem_digit hc)).1),
      splitOnChar_append_sep '.' (pad2 d.month) _
        (fun c hc => (isDigit_ne_seps (pad2_mem_digit hc)).1),
      splitOnChar_no_sep '.' (pad4 d.year)
        (fun c hc => (isDigit_ne_seps (pad4_mem_digit hc)).1)]
  have hday : dayComp? (pad2 d.day) = some d.day := by
    unfold dayComp?
    rw [if_pos ⟨Or.inr rfl, allDigits_pad2 d.day,
      by rw [digitsToNat_pad2 d.day (by omega)]; omega,
      by rw [digitsToNat_pad2 d.day (by omega)]; omega⟩,
      digitsToNat_pad2 d.day (by omega)]
  have hmon : monthComp? (pad2 d.month) = some d.month := by
    unfold monthComp?
    rw [if_pos ⟨Or.inr rfl, allDigits_pad2 d.month,
      by rw [digitsToNat_pad2 d.month (by omega)]; omega,
      by rw [digitsToNat_pad2 d.month (by omega)]; omega⟩,
      digitsToNat_pad2 d.month (by omega)]
  have hyear : yearComp? (pad4 d.year) = some d.year := by
    unfold yearComp?
    rw [if_pos ⟨rfl, allDigits_pad4 d.year,
      by rw [digitsToNat_pad4 d.year (by omega)]; omega⟩,
      digitsToNat_pad4 d.year (by omega)]
  unfold strptimeDate?
  rw [hsplit]
  simp only [hday, hmon, hyear, mkValidDate?]
  rw [if_pos hd2]

/-! ## Claim C3: date coercion priority order and round trips -/

/-- C3: the five formats are tried in the fixed order `dd.mm.yyyy`,
`yyyy-mm-dd`, `yyyy/mm/dd`, `dd/mm/yyyy`, `mm/dd/yyyy`, and the first
successful parse wins (stated positionally below); consequently a
canonical `dd.mm.yyyy` string (the rendering of a valid date) coerces to
itself, and a string matching none of the five formats is returned
unchanged. -/
theorem coerce_date_priority_and_roundtrip :
    (∀ d : Date, d.valid = true →
      coerceDateStr (strftimeDMY d) = strftimeDMY d) ∧
    (∀ s, (∀ f ∈ dateFormats, strptimeDate? f s = none) →
      coerceDateStr s = s) ∧
    (∀ s d, strptimeDate? ⟨'.', .dmy⟩ s = some d →
      coerceDateStr s = strftimeDMY d) ∧
    (∀ s d, strptimeDate? ⟨'.', .dmy⟩ s = none →
      strptimeDate? ⟨'-', .ymd⟩ s = some d →
      coerceDateStr s = strftimeDMY d) ∧
    (∀ s d, strptimeDate? ⟨'.', .dmy⟩ s = none →
      strptimeDate? ⟨'-', .ymd⟩ s = none →
      strptimeDate? ⟨'/', .ymd⟩ s = some d →
      coerceDateStr s = strftimeDMY d) ∧
    (∀ s d, strptimeDate? ⟨'.', .dmy⟩ s = none →
      strptimeDate? ⟨'-', .ymd⟩ s = none →
      strptimeDate? ⟨'/', .ymd⟩ s = none →
      strptimeDate? ⟨'/', .dmy⟩ s = some d →
      coerceDateStr s = strftimeDMY d) ∧
    (∀ s d, strptimeDate? ⟨'.', .dmy⟩ s = none →
      strptimeDate? ⟨'-', .ymd⟩ s = none →
      strptimeDate? ⟨'/', .ymd⟩ s = none →
      strptimeDate? ⟨'/', .dmy⟩ s = none →
      strptimeDate? ⟨'/', .mdy⟩ s = some d →
      coerceDateStr s = strftimeDMY d) ∧
    (∀ s, _coerce_date_like (.str s) = coerceDateStr s) := by
  have hfirst : ∀ s d, strptimeDate? ⟨'.', .dmy⟩ s = some d →
      coerceDateStr s = strftimeDMY d := by
    intro s d h
    unfold coerceDateStr firstParse dateFormats
    simp only [h]
  refine ⟨fun d hd => hfirst _ _ (strptime_strftime d hd), ?_, hfirst,
    ?_, ?_, ?_, ?_, fun s => rfl⟩
  · intro s h
    simp only [coerceDateStr, dateFormats, firstParse,
      h ⟨'.', .dmy⟩ (by simp [dateFormats]),
      h ⟨'-', .ymd⟩ (by simp [dateFormats]),
      h ⟨'/', .ymd⟩ (by simp [dateFormats]),
      h ⟨'/', .dmy⟩ (by simp [dateFormats]),
      h ⟨'/', .mdy⟩ (by simp [dateFormats])]
  · intro s d h1 h2
    simp only [coerceDateStr, dateFormats, firstParse, h1, h2]
  · intro s d h1 h2 h3
    simp only [coerceDateStr, dateFormats, firstParse, h1, h2, h3]
  · intro s d h1 h2 h3 h4
    simp only [coerceDateStr, dateFormats, firstParse, h1, h2, h3, h4]
  · intro s d h1 h2 h3 h4 h5
    simp only [coerceDateStr, dateFormats, firstParse, h1, h2, h3, h4, h5]

/-- C3 witness: `"31.12.2025"` round-trips unchanged; `"notadate"`
matches no format and is returned unchanged; `"03/04/2025"` is taken by
the earlier `dd/mm/yyyy` format (April 3rd), not `mm/dd/yyyy`. -/
theorem coerce_date_priority_and_roundtrip_witness :
    coerceDateStr (strftimeDMY ⟨2025, 12, 31⟩) = strftimeDMY ⟨2025, 12, 31⟩ ∧
    coerceDateStr "notadate".data = "notadate".data ∧
    coerceDateStr "03/04/2025".data = strftimeDMY ⟨2025, 4, 3⟩ :=
  ⟨coerce_date_priority_and_roundtrip.1 ⟨2025, 12, 31⟩ (by decide),
    coerce_date_priority_and_roundtrip.2.1 "notadate".data (by decide),
    coerce_date_priority_and_roundtrip.2.2.2.2.2.1 "03/04/2025".data
      ⟨2025, 4, 3⟩ (by decide) (by decide) (by decide) (by decide)⟩

/-! ## Claim C2: nearby-search post-processing -/

/-- What one accepted nearby candidate satisfies: it has coordinates,
its `distance_from_center` is the rounded `hav`-distance from the
center to those coordinates, and a present rating is at least the
minimum. -/
theorem nearbyCandidate_spec (hav : ℚ → ℚ → ℚ → ℚ → ℚ)
    (la lo mr : ℚ) (p : RawPlace) (r : NearbyPlace)
    (h : nearbyCandidate hav la lo mr p = some r) :
    (∃ c, r.base.coordinates = some c ∧
      r.distance_from_center.km = round3 (hav la lo c.latitude c.longitude) ∧
      r.distance_from_center.meters =
        roundMeters (hav la lo c.latitude c.longitude)) ∧
    (∀ q, r.base.rating = some q → mr ≤ q) := by
  unfold nearbyCandidate at h
  cases hco : (_normalize_place_data p).coordinates with
  | none => rw [hco] at h; cases h
  | some c =>
      simp only [hco] at h
      cases hra : (_normalize_place_data p).rating with
      | none =>
          simp only [hra] at h
          obtain rfl := Option.some.inj h
          exact ⟨⟨c, hco, rfl, rfl⟩, fun q hq => absurd (hra ▸ hq) (by simp)⟩
      | some rv =>
          simp only [hra] at h
          by_cases hle : mr ≤ rv
          · rw [if_pos hle] at h
            obtain rfl := Option.some.inj h
            refine ⟨⟨c, hco, rfl, rfl⟩, fun q hq => ?_⟩
            have : some rv = some q := hra ▸ hq
            obtain rfl := Option.some.inj this
            exact hle
          · rw [if_neg hle] at h
            cases h

/-- C2: when a by-coordinates search succeeds, every returned result has
coordinates (candidates lacking them are excluded entirely), carries
`distance_from_center` with the kilometre value rounded to 3 decimals
and the metre value rounded to the nearest integer, has any present
rating at least the requested minimum (absent ratings pass), and the
result list is sorted ascending by distance from the center. -/
theorem nearby_search_properties (hav : ℚ → ℚ → ℚ → ℚ → ℚ) (la lo : ℚ)
    (min_rating radius : Option ℚ) (textResp resp : ProviderResponse)
    {results : List NearbyPlace} {tf : Nat} {ctr : ℚ × ℚ} {rkm mr : ℚ}
    (heq : hotels_search hav none (some la) (some lo) min_rating radius
      textResp resp = .nearbyOk results tf ctr rkm mr) :
    (∀ r ∈ results, r.base.coordinates.isSome = true) ∧
    (∀ r ∈ results, ∃ c, r.base.coordinates = some c ∧
      r.distance_from_center.km = round3 (hav la lo c.latitude c.longitude) ∧
      r.distance_from_center.meters =
        roundMeters (hav la lo c.latitude c.longitude)) ∧
    (∀ r ∈ results, ∀ q, r.base.rating = some q → min_rating.getD 0 ≤ q) ∧
    results.Pairwise
      (fun a b => a.distance_from_center.km ≤ b.distance_from_center.km) := by
  unfold hotels_search at heq
  cases he : resp.error with
  | some e => rw [he] at heq; cases heq
  | none =>
      rw [he] at heq
      obtain ⟨hres, -⟩ := SearchResult.nearbyOk.inj heq
      have hmem : ∀ r ∈ results, ∃ p ∈ resp.places,
          nearbyCandidate hav la lo (min_rating.getD 0) p = some r := by
        intro r hr
        rw [← hres] at hr
        rw [(List.perm_insertionSort _ _).mem_iff] at hr
        exact List.mem_filterMap.mp hr
      refine ⟨?_, ?_, ?_, ?_⟩
      · intro r hr
        obtain ⟨p, -, hp⟩ := hmem r hr
        obtain ⟨⟨c, hc, -, -⟩, -⟩ := nearbyCandidate_spec hav la lo _ p r hp
        rw [hc]
        rfl
      · intro r hr
        obtain ⟨p, -, hp⟩ := hmem r hr
        exact (nearbyCandidate_spec hav la lo _ p r hp).1
      · intro r hr
        obtain ⟨p, -, hp⟩ := hmem r hr
        exact (nearbyCandidate_spec hav la lo _ p r hp).2
      · rw [← hres]
        haveI : IsTotal NearbyPlace
            (fun a b => a.distance_from_center.km ≤ b.distance_from_center.km) :=
          ⟨fun a b => le_total _ _⟩
        haveI : IsTrans NearbyPlace
            (fun a b => a.distance_from_center.km ≤ b.distance_from_center.km) :=
          ⟨fun _ _ _ hab hbc => le_trans hab hbc⟩
        exact List.sorted_insertionSort _ _

/-- A distance function for concrete checks: the candidate's latitude,
so a place at latitude 1 is nearer than one at latitude 5. -/
def wHav : ℚ → ℚ → ℚ → ℚ → ℚ := fun _ _ plat _ => plat

/-- A raw payload carrying only coordinates. -/
def wPlace (lat lng : ℚ) : RawPlace :=
  { emptyRawPlace with location := some ⟨some lat, some lng, none, none⟩ }

/-- A successful nearby provider response with candidates at (model)
distances 5 and 1. -/
def wResp : ProviderResponse := ⟨none, [wPlace 5 1, wPlace 1 1]⟩

/-- The result list the nearby branch produces for `wResp`. -/
def wResults : List NearbyPlace :=
  List.insertionSort
    (fun a b => a.distance_from_center.km ≤ b.distance_from_center.km)
    (wResp.places.filterMap
      (nearbyCandidate wHav 0 0 ((none : Option ℚ).getD 0)))

/-- C2 witness: the nearby-search properties instantiated at the
concrete two-candidate response. -/
theorem nearby_search_properties_witness :
    (∀ r ∈ wResults, r.base.coordinates.isSome = true) ∧
    (∀ r ∈ wResults, ∃ c, r.base.coordinates = some c ∧
      r.distance_from_center.km = round3 (wHav 0 0 c.latitude c.longitude) ∧
      r.distance_from_center.meters =
        roundMeters (wHav 0 0 c.latitude c.longitude)) ∧
    (∀ r ∈ wResults, ∀ q, r.base.rating = some q →
      (none : Option ℚ).getD 0 ≤ q) ∧
    wResults.Pairwise
      (fun a b => a.distance_from_center.km ≤ b.distance_from_center.km) :=
  nearby_search_properties wHav 0 0 none none ⟨none, []⟩ wResp rfl
